import Mathlib

/-!
Shallow embedding of the `my-recipe-app` React client
(`src/ltnqls11/my-recipe-app/src/App.js`) and of the Supabase provisioning
script (`src/yoon21534/setup_supabase.sql`).

Conventions of the embedding:
* JavaScript numbers are modelled over `ℚ` together with the special values
  `NaN` and the two infinities (`JsNum`); integer counts coming from the
  backend are modelled as `ℕ`.
* React state is a record `AppState`; a `setX(v)` call becomes a record
  update.  Event handlers close over the state of the render that created
  them, so handler code reads the snapshot it was created with while its
  updates accumulate into the pending state (this matters in `handleLogin`,
  whose nested `fetchUserIngredients` still sees the pre-login `token`).
* The network is an oracle: each `fetch` consumes one `FetchOutcome`
  describing whether the response was ok, an HTTP error, or a thrown
  exception.  `callApi` returns the parsed data (or `none`), the updated
  state, and the list of HTTP requests it issued.
* `localStorage` is the `storage` field of the state.
-/

/-! ## JavaScript number semantics (IEEE specials over ℚ) -/

inductive JsNum where
  | num (q : ℚ)
  | posInf
  | negInf
  | nan
deriving DecidableEq

/-- JS division: `0/0 = NaN`, `x/0 = ±Infinity` for `x ≠ 0`. -/
def jsDiv : JsNum → JsNum → JsNum
  | .num a, .num b =>
      if b = 0 then (if a = 0 then .nan else if 0 < a then .posInf else .negInf)
      else .num (a / b)
  | .nan, _ => .nan
  | _, .nan => .nan
  | .posInf, .posInf => .nan
  | .posInf, .negInf => .nan
  | .negInf, .posInf => .nan
  | .negInf, .negInf => .nan
  | .posInf, .num b => if 0 ≤ b then .posInf else .negInf
  | .negInf, .num b => if 0 ≤ b then .negInf else .posInf
  | .num _, .posInf => .num 0
  | .num _, .negInf => .num 0

/-- JS multiplication with the IEEE special values. -/
def jsMul : JsNum → JsNum → JsNum
  | .num a, .num b => .num (a * b)
  | .nan, _ => .nan
  | _, .nan => .nan
  | .posInf, .posInf => .posInf
  | .posInf, .negInf => .negInf
  | .negInf, .posInf => .negInf
  | .negInf, .negInf => .posInf
  | .posInf, .num b => if b = 0 then .nan else if 0 < b then .posInf else .negInf
  | .num a, .posInf => if a = 0 then .nan else if 0 < a then .posInf else .negInf
  | .negInf, .num b => if b = 0 then .nan else if 0 < b then .negInf else .posInf
  | .num a, .negInf => if a = 0 then .nan else if 0 < a then .negInf else .posInf

/-- `Number.prototype.toFixed(1)` on a nonnegative rational: round to the
integer `n` of tenths nearest to the value, ties towards the larger `n`,
and print `n` as `intPart.digit`.  (The app only ever formats nonnegative
percentages, so the negative-sign placement of JS is irrelevant here.) -/
def toFixed1 (q : ℚ) : String :=
  let n : Int := (q * 10 + 1 / 2).floor
  toString (n / 10) ++ "." ++ toString (n % 10)

/-- `toFixed(1)` lifted to JS numbers: `NaN.toFixed(1) = "NaN"` and
`Infinity.toFixed(1) = "Infinity"`. -/
def jsToFixed1 : JsNum → String
  | .nan => "NaN"
  | .posInf => "Infinity"
  | .negInf => "-Infinity"
  | .num q => toFixed1 q

/-! ## JavaScript string helpers -/

/-- Whitespace for `String.prototype.trim` / leading-space skipping: the
ASCII whitespace characters (space, tab, LF, VT, FF, CR) and NBSP. -/
def isJsSpace (c : Char) : Bool :=
  c = ' ' ∨ c = '\t' ∨ c = '\n' ∨ c = '\r' ∨ c.toNat = 11 ∨ c.toNat = 12 ∨
    c.toNat = 160

/-- `String.prototype.trim`: drop whitespace from both ends. -/
def jsTrim (l : List Char) : List Char :=
  ((l.dropWhile isJsSpace).reverse.dropWhile isJsSpace).reverse

/-- Does `pat` occur as a contiguous run in `l`? -/
def containsSeq (pat : List Char) : List Char → Bool
  | [] => pat.isPrefixOf []
  | c :: cs => pat.isPrefixOf (c :: cs) || containsSeq pat cs

/-- `String.prototype.includes(pat)`. -/
def jsIncludes (s pat : String) : Bool :=
  containsSeq pat.toList s.toList

/-- Template-literal / `localStorage.setItem` coercion of a possibly
`undefined` string value: `undefined` prints as `"undefined"`. -/
def jsStr (o : Option String) : String :=
  match o with
  | some s => s
  | none => "undefined"

/-- Template-literal coercion of a possibly `undefined` number. -/
def jsNumStr (o : Option Nat) : String :=
  match o with
  | some n => toString n
  | none => "undefined"

/-- Truthiness of a possibly-`undefined` JS string: `undefined` and `""`
are falsy. -/
def jsTruthyStr (o : Option String) : Bool :=
  match o with
  | some s => s ≠ ""
  | none => false

/-- Digit list to natural number, most significant first. -/
def digitsToNat (l : List Char) : Nat :=
  l.foldl (fun n c => n * 10 + (c.toNat - 48)) 0

/-- `parseFloat` on the plain decimal strings a `<input type="number">`
field produces: optional sign, an integer part, an optional fraction;
anything with no leading digits (after an optional sign and a dot with no
digits) is `NaN`.  Trailing characters are ignored, as in JS. -/
def jsParseFloat (s : String) : JsNum :=
  let t := s.toList.dropWhile isJsSpace
  let (sgn, rest) : ℚ × List Char :=
    match t with
    | '-' :: r => (-1, r)
    | '+' :: r => (1, r)
    | r => (1, r)
  let intPart := rest.takeWhile Char.isDigit
  let rest2 := rest.drop intPart.length
  match rest2 with
  | '.' :: fr =>
      let fracPart := fr.takeWhile Char.isDigit
      if intPart = [] ∧ fracPart = [] then .nan
      else .num (sgn * ((digitsToNat intPart : ℚ) +
        (digitsToNat fracPart : ℚ) / ((10 : ℚ) ^ fracPart.length)))
  | _ => if intPart = [] then .nan else .num (sgn * (digitsToNat intPart : ℚ))

/-- The comma parsing used for the free-text allergy / preference fields:
`s.split(',').map(s => s.trim()).filter(Boolean)` (App.js lines 182–183
and 237).  `split(',')` on a single-character separator is the list-level
`splitOn`, and `filter(Boolean)` drops exactly the empty strings. -/
def splitTrimFilterCSV (s : String) : List String :=
  ((s.toList.splitOn ',').map (fun part => String.mk (jsTrim part))).filter
    (fun t => t ≠ "")

/-! ## Data model -/

/-- One row of the per-user ingredient list as returned by the backend and
rendered on the dashboard. -/
structure Ingredient where
  user_ingredient_id : Nat
  ingredient_name : String
  quantity : ℚ
  unit : Option String
  purchase_date : String
  expiration_date : String
  location : String
deriving DecidableEq

/-- One segment of the category-distribution chart data. -/
structure CategoryItem where
  category : String
  count : Nat
deriving DecidableEq

/-- One segment of the expiration-status chart data. -/
structure ExpirationItem where
  status : String
  count : Nat
deriving DecidableEq

/-- One segment of the location-distribution chart data. -/
structure LocationItem where
  location : String
  count : Nat
deriving DecidableEq

/-- The `stats` object read from `/dashboard-stats`. -/
structure DashboardStats where
  ingredient_count : Nat
  category_distribution : List CategoryItem
  expiration_status : List ExpirationItem
  location_distribution : List LocationItem
deriving DecidableEq

/-- One entry of the `chartAnalyses` object. -/
structure ChartAnalysis where
  analysis : String
  title : String
  summary : String
deriving DecidableEq

/-- The JSON object a successful API response may carry; each handler reads
the fields it expects, every field may be absent (`undefined`). -/
structure ApiData where
  token : Option String
  user_id : Option String
  ingredients : Option (List Ingredient)
  recommended_recipes_text : Option String
  suggestions : Option String
  current_ingredients : Option Nat
  stats : Option DashboardStats
  chart_analysis : Option String
  chart_title : Option String
  data_summary : Option String
  nutrition_analysis : Option String
  meal_plan : Option String
  price_analysis : Option String
deriving DecidableEq

/-- The two `localStorage` keys the app uses. -/
structure LocalStorage where
  jwtToken : Option String
  userId : Option String
deriving DecidableEq

/-- The React state of `App` (App.js lines 8–36). -/
structure AppState where
  isLoggedIn : Bool
  token : String
  userId : String
  username : String
  password : String
  email : String
  message : String
  currentView : String
  ingredients : List Ingredient
  newIngredientName : String
  newIngredientQuantity : String
  newIngredientPurchaseDate : String
  newIngredientExpirationDate : String
  newIngredientLocation : String
  recommendedRecipes : String
  allergies : String
  preferences : String
  isLoading : Bool
  dashboardStats : Option DashboardStats
  chartAnalyses : List (String × ChartAnalysis)
  nutritionAnalysis : String
  mealPlan : String
  priceAnalysis : String
  storage : LocalStorage
deriving DecidableEq

/-- The chart data passed to `/generate-chart-description`. -/
inductive ChartData where
  | catData (l : List CategoryItem)
  | expData (l : List ExpirationItem)
  | locData (l : List LocationItem)
deriving DecidableEq

/-- The JSON request bodies the client builds. -/
inductive ReqBody where
  | registerB (username email password : String)
  | loginB (username password : String)
  | addIngredientB (ingredient_name : String) (quantity : JsNum)
      (purchase_date expiration_date location : String)
  | recommendB (allergies preferences : List String)
  | chartB (chart_type : String) (chart_data : ChartData)
  | mealPlanB (days : Nat) (preferences : List String)
deriving DecidableEq

/-- One HTTP request as built by `callApi` (App.js lines 56–71). -/
structure Request where
  url : String
  method : String
  hasAuthHeader : Bool
  body : Option ReqBody
deriving DecidableEq

/-- What the network did for one `fetch`:
* `ok data` — response ok and its JSON parsed as `data`;
* `okBadJson` — response ok but `response.json()` threw;
* `httpError` — `!response.ok` with the given status and the optional
  `error` / `message` fields of the error JSON;
* `fetchError` — `fetch` itself rejected (e.g. a connection failure throws
  a `TypeError` mentioning `fetch`). -/
inductive FetchOutcome where
  | ok (data : ApiData)
  | okBadJson (errName errMsg : String)
  | httpError (status : Nat) (errField msgField : Option String)
  | fetchError (errName errMsg : String)
deriving DecidableEq

/-- An outcome on which `callApi` returns `null`. -/
def FetchOutcome.fails : FetchOutcome → Bool
  | .ok _ => false
  | _ => true

/-! ## `callApi` (App.js lines 52–94) -/

def API_BASE_URL : String := "http://127.0.0.1:5000/api"

/-- Entry of `callApi`: clear the message, start loading (lines 53–54). -/
def callApiStart (st : AppState) : AppState :=
  { st with message := "", isLoading := true }

/-- JS `a || b` on a possibly-undefined string (empty strings are falsy). -/
def jsOrStr (a : Option String) (b : String) : String :=
  match a with
  | some s => if s = "" then b else s
  | none => b

/-- The message of the `Error` thrown in the `!response.ok` branch
(lines 73–79): a fixed connection message for a falsy status, otherwise
`data.error || data.message || "HTTP <status> 오류"`. -/
def httpThrownMessage (status : Nat) (errField msgField : Option String) : String :=
  if status = 0 then "서버에 연결할 수 없습니다. Flask 서버가 실행 중인지 확인해주세요."
  else jsOrStr errField (jsOrStr msgField ("HTTP " ++ toString status ++ " 오류"))

/-- The user-visible message set in the `catch` block (lines 85–89). -/
def catchMessage (errName errMsg : String) : String :=
  if errName = "TypeError" ∧ jsIncludes errMsg "fetch" then
    "오류: 서버에 연결할 수 없습니다. Flask 서버(http://127.0.0.1:5000)가 실행 중인지 확인해주세요."
  else "오류: " ++ errMsg

/-- `callApi(endpoint, method, body)`.  `closureToken` is the `token` the
handler's render closed over (it decides the `Authorization` header).
Returns the parsed data (`none` when anything threw), the state after the
`try/catch/finally`, and the list of HTTP requests issued — always exactly
the single `fetch` of line 71. -/
def callApi (closureToken : String) (st : AppState) (endpoint method : String)
    (body : Option ReqBody) (o : FetchOutcome) :
    Option ApiData × AppState × List Request :=
  let st1 := callApiStart st
  let req : Request :=
    { url := API_BASE_URL ++ endpoint
      method := method
      hasAuthHeader := closureToken ≠ ""
      body := body }
  match o with
  | .ok d => (some d, { st1 with isLoading := false }, [req])
  | .okBadJson n m =>
      (none, { st1 with message := catchMessage n m, isLoading := false }, [req])
  | .httpError status errF msgF =>
      let msg := catchMessage "Error" (httpThrownMessage status errF msgF)
      (none, { st1 with message := msg, isLoading := false }, [req])
  | .fetchError n m =>
      (none, { st1 with message := catchMessage n m, isLoading := false }, [req])

/-! ## Handlers (App.js lines 97–251)

Each handler takes the snapshot state of the render that created it and one
`FetchOutcome` per `fetch` it can reach, in program order.  It returns the
final state and the bursts of HTTP requests it issued; requests inside one
burst were started without an intervening `await`, so they are in flight
simultaneously. -/

/-- `fetchUserIngredients` (lines 137–143).  The `if (!token) return` guard
and the auth header use the closed-over `token`, not the pending state. -/
def fetchUserIngredients (closureToken : String) (st : AppState) (o : FetchOutcome) :
    AppState × List Request :=
  if closureToken = "" then (st, [])
  else
    let (data, st1, reqs) := callApi closureToken st "/user_ingredients" "GET" none o
    match data with
    | some d =>
        match d.ingredients with
        | some ings => ({ st1 with ingredients := ings }, reqs)
        | none => (st1, reqs)
    | none => (st1, reqs)

/-- `fetchDashboardStats` (lines 201–206). -/
def fetchDashboardStats (closureToken : String) (st : AppState) (o : FetchOutcome) :
    AppState × List Request :=
  let (data, st1, reqs) := callApi closureToken st "/dashboard-stats" "GET" none o
  match data with
  | some d =>
      match d.stats with
      | some s => ({ st1 with dashboardStats := some s }, reqs)
      | none => (st1, reqs)
  | none => (st1, reqs)

/-- `handleRegister` (lines 97–107). -/
def handleRegister (st : AppState) (o : FetchOutcome) : AppState × List (List Request) :=
  let body := ReqBody.registerB st.username st.email st.password
  let (data, st1, reqs) := callApi st.token st "/register" "POST" (some body) o
  match data with
  | some _ =>
      ({ st1 with message := "회원가입 성공! 이제 로그인해주세요.", currentView := "login",
                  username := "", password := "", email := "" }, [reqs])
  | none => (st1, [reqs])

/-- `handleLogin` (lines 109–122).  On success the nested
`fetchUserIngredients` call still closes over the pre-login `token`. -/
def handleLogin (st : AppState) (o1 o2 : FetchOutcome) : AppState × List (List Request) :=
  let body := ReqBody.loginB st.username st.password
  let (data, st1, reqs1) := callApi st.token st "/login" "POST" (some body) o1
  match data with
  | some d =>
      if jsTruthyStr d.token then
        let tok := jsStr d.token
        let uid := jsStr d.user_id
        let st2 := { st1 with
          storage := { jwtToken := some tok, userId := some uid }
          token := tok
          userId := uid
          isLoggedIn := true
          message := "로그인 성공!"
          currentView := "dashboard" }
        let (st3, reqs2) := fetchUserIngredients st.token st2 o2
        (st3, [reqs1, reqs2])
      else (st1, [reqs1])
  | none => (st1, [reqs1])

/-- `handleLogout` (lines 124–134); issues no request. -/
def handleLogout (st : AppState) : AppState :=
  { st with
    storage := { jwtToken := none, userId := none }
    token := ""
    userId := ""
    isLoggedIn := false
    message := "로그아웃되었습니다."
    currentView := "login"
    ingredients := []
    recommendedRecipes := "" }

/-- `handleAddIngredient` (lines 145–165).  On success the two refreshes
are started without an `await` between them: one burst of two requests. -/
def handleAddIngredient (st : AppState) (o1 o2 o3 : FetchOutcome) :
    AppState × List (List Request) :=
  let body := ReqBody.addIngredientB st.newIngredientName
    (jsParseFloat st.newIngredientQuantity) st.newIngredientPurchaseDate
    st.newIngredientExpirationDate st.newIngredientLocation
  let (data, st1, reqs1) := callApi st.token st "/user_ingredients" "POST" (some body) o1
  match data with
  | some _ =>
      let st2 := { st1 with
        message := "재료가 성공적으로 추가되었습니다!"
        newIngredientName := ""
        newIngredientQuantity := ""
        newIngredientPurchaseDate := ""
        newIngredientExpirationDate := ""
        newIngredientLocation := "냉장실" }
      let (st3, reqs2) := fetchUserIngredients st.token st2 o2
      let st4 := { st3 with currentView := "dashboard" }
      let (st5, reqs3) := fetchDashboardStats st.token st4 o3
      (st5, [reqs1, reqs2 ++ reqs3])
  | none => (st1, [reqs1])

/-- `handleDeleteIngredient` (lines 167–176); nothing happens unless the
`window.confirm` dialog was accepted. -/
def handleDeleteIngredient (st : AppState) (confirmed : Bool) (userIngredientId : Nat)
    (o1 o2 o3 : FetchOutcome) : AppState × List (List Request) :=
  if confirmed then
    let (data, st1, reqs1) :=
      callApi st.token st ("/user_ingredients/" ++ toString userIngredientId) "DELETE" none o1
    match data with
    | some _ =>
        let st2 := { st1 with message := "재료가 성공적으로 삭제되었습니다." }
        let (st3, reqs2) := fetchUserIngredients st.token st2 o2
        let (st4, reqs3) := fetchDashboardStats st.token st3 o3
        (st4, [reqs1, reqs2 ++ reqs3])
    | none => (st1, [reqs1])
  else (st, [])

/-- `handleRecommendRecipes` (lines 179–189). -/
def handleRecommendRecipes (st : AppState) (o : FetchOutcome) :
    AppState × List (List Request) :=
  let body := ReqBody.recommendB (splitTrimFilterCSV st.allergies)
    (splitTrimFilterCSV st.preferences)
  let (data, st1, reqs) := callApi st.token st "/recommend_recipes" "POST" (some body) o
  match data with
  | some d =>
      if jsTruthyStr d.recommended_recipes_text then
        ({ st1 with recommendedRecipes := jsStr d.recommended_recipes_text,
                    message := "GPT가 맞춤 레시피를 추천했습니다!" }, [reqs])
      else (st1, [reqs])
  | none => (st1, [reqs])

/-- `handleSmartSuggestions` (lines 192–198); the `alert` leaves no state. -/
def handleSmartSuggestions (st : AppState) (o : FetchOutcome) :
    AppState × List (List Request) :=
  let (data, st1, reqs) := callApi st.token st "/smart-ingredient-suggestions" "POST" none o
  match data with
  | some d =>
      if jsTruthyStr d.suggestions then
        let msg := "현재 " ++ jsNumStr d.current_ingredients ++
          "개 재료를 분석하여 추천을 생성했습니다!"
        ({ st1 with message := msg }, [reqs])
      else (st1, [reqs])
  | none => (st1, [reqs])

/-- JS object-spread update `{...prev, [k]: v}` on the assoc list that
models `chartAnalyses`. -/
def setChartEntry (l : List (String × ChartAnalysis)) (k : String) (v : ChartAnalysis) :
    List (String × ChartAnalysis) :=
  if l.any (fun p => p.1 = k) then l.map (fun p => if p.1 = k then (k, v) else p)
  else l ++ [(k, v)]

/-- `generateChartAnalysis` (lines 208–224). -/
def generateChartAnalysis (st : AppState) (chartType : String) (chartData : ChartData)
    (o : FetchOutcome) : AppState × List (List Request) :=
  let body := ReqBody.chartB chartType chartData
  let (data, st1, reqs) :=
    callApi st.token st "/generate-chart-description" "POST" (some body) o
  match data with
  | some d =>
      if jsTruthyStr d.chart_analysis then
        let entry : ChartAnalysis :=
          { analysis := jsStr d.chart_analysis
            title := jsStr d.chart_title
            summary := jsStr d.data_summary }
        ({ st1 with chartAnalyses := setChartEntry st1.chartAnalyses chartType entry,
                    message := jsStr d.chart_title ++ " 분석이 완료되었습니다!" }, [reqs])
      else (st1, [reqs])
  | none => (st1, [reqs])

/-- `analyzeNutrition` (lines 226–232). -/
def analyzeNutrition (st : AppState) (o : FetchOutcome) : AppState × List (List Request) :=
  let (data, st1, reqs) := callApi st.token st "/analyze-nutrition" "POST" none o
  match data with
  | some d =>
      if jsTruthyStr d.nutrition_analysis then
        ({ st1 with nutritionAnalysis := jsStr d.nutrition_analysis,
                    message := "영양 분석이 완료되었습니다!" }, [reqs])
      else (st1, [reqs])
  | none => (st1, [reqs])

/-- `generateMealPlan` (lines 234–243). -/
def generateMealPlan (st : AppState) (days : Nat) (o : FetchOutcome) :
    AppState × List (List Request) :=
  let body := ReqBody.mealPlanB days (splitTrimFilterCSV st.preferences)
  let (data, st1, reqs) := callApi st.token st "/generate-meal-plan" "POST" (some body) o
  match data with
  | some d =>
      if jsTruthyStr d.meal_plan then
        ({ st1 with mealPlan := jsStr d.meal_plan,
                    message := toString days ++ "일 식단 계획이 생성되었습니다!" }, [reqs])
      else (st1, [reqs])
  | none => (st1, [reqs])

/-- `analyzePrices` (lines 245–251). -/
def analyzePrices (st : AppState) (o : FetchOutcome) : AppState × List (List Request) :=
  let (data, st1, reqs) := callApi st.token st "/price-analysis" "GET" none o
  match data with
  | some d =>
      if jsTruthyStr d.price_analysis then
        ({ st1 with priceAnalysis := jsStr d.price_analysis,
                    message := "가격 분석이 완료되었습니다!" }, [reqs])
      else (st1, [reqs])
  | none => (st1, [reqs])

/-! ## User actions (every `onClick` / `onSubmit` in the JSX) -/

/-- One user interaction with the rendered page.  Constructors carry the
network outcomes for the fetches the handler can reach, in program order. -/
inductive UserAction where
  | submitLogin (o1 o2 : FetchOutcome)
  | clickGotoRegister
  | submitRegister (o : FetchOutcome)
  | clickGotoLogin
  | clickChartCategory (o : FetchOutcome)
  | clickChartExpiration (o : FetchOutcome)
  | clickChartLocation (o : FetchOutcome)
  | clickAnalyzeNutrition (o : FetchOutcome)
  | clickWeeklyMealPlan (o : FetchOutcome)
  | clickAnalyzePrices (o : FetchOutcome)
  | clickSmartSuggestions (o : FetchOutcome)
  | clickDeleteIngredient (confirmed : Bool) (userIngredientId : Nat) (o1 o2 o3 : FetchOutcome)
  | clickShowAddIngredient
  | clickShowRecommend
  | submitAddIngredient (o1 o2 o3 : FetchOutcome)
  | clickCancelAddIngredient
  | submitRecommend (o : FetchOutcome)
  | clickCancelRecommend
  | clickNavDashboard (o1 o2 : FetchOutcome)
  | clickNavAddIngredient
  | clickNavRecommend
  | clickLogout
deriving DecidableEq

/-- Dispatch of a user action to its handler.  The chart buttons are
guarded by `dashboardStats &&` (lines 477, 484, 491); the dashboard nav
button (line 775) starts `fetchUserIngredients` and `fetchDashboardStats`
without awaiting either, so both requests form one burst. -/
def runAction (st : AppState) : UserAction → AppState × List (List Request)
  | .submitLogin o1 o2 => handleLogin st o1 o2
  | .clickGotoRegister => ({ st with currentView := "register" }, [])
  | .submitRegister o => handleRegister st o
  | .clickGotoLogin => ({ st with currentView := "login" }, [])
  | .clickChartCategory o =>
      match st.dashboardStats with
      | some s => generateChartAnalysis st "category" (.catData s.category_distribution) o
      | none => (st, [])
  | .clickChartExpiration o =>
      match st.dashboardStats with
      | some s => generateChartAnalysis st "expiration" (.expData s.expiration_status) o
      | none => (st, [])
  | .clickChartLocation o =>
      match st.dashboardStats with
      | some s => generateChartAnalysis st "location" (.locData s.location_distribution) o
      | none => (st, [])
  | .clickAnalyzeNutrition o => analyzeNutrition st o
  | .clickWeeklyMealPlan o => generateMealPlan st 7 o
  | .clickAnalyzePrices o => analyzePrices st o
  | .clickSmartSuggestions o => handleSmartSuggestions st o
  | .clickDeleteIngredient c i o1 o2 o3 => handleDeleteIngredient st c i o1 o2 o3
  | .clickShowAddIngredient => ({ st with currentView := "addIngredient" }, [])
  | .clickShowRecommend => ({ st with currentView := "recommend" }, [])
  | .submitAddIngredient o1 o2 o3 => handleAddIngredient st o1 o2 o3
  | .clickCancelAddIngredient => ({ st with currentView := "dashboard" }, [])
  | .submitRecommend o => handleRecommendRecipes st o
  | .clickCancelRecommend => ({ st with currentView := "dashboard" }, [])
  | .clickNavDashboard o1 o2 =>
      let st1 := { st with currentView := "dashboard" }
      let (st2, reqs1) := fetchUserIngredients st.token st1 o1
      let (st3, reqs2) := fetchDashboardStats st.token st2 o2
      (st3, [reqs1 ++ reqs2])
  | .clickNavAddIngredient => ({ st with currentView := "addIngredient" }, [])
  | .clickNavRecommend => ({ st with currentView := "recommend" }, [])
  | .clickLogout => (handleLogout st, [])

/-! ## View dispatch (`renderView`, App.js lines 254–766) -/

/-- The five view panels the `switch` can return. -/
inductive Panel where
  | loginForm
  | registerForm
  | dashboard
  | addIngredientForm
  | recommendView
deriving DecidableEq

/-- `renderView`: the `switch (currentView)` returning one panel, or
`null` in the `default` branch. -/
def renderView (currentView : String) : Option Panel :=
  match currentView with
  | "login" => some .loginForm
  | "register" => some .registerForm
  | "dashboard" => some .dashboard
  | "addIngredient" => some .addIngredientForm
  | "recommend" => some .recommendView
  | _ => none

/-! ## Dashboard chart rows (App.js lines 411–465) -/

/-- The `{count}개 ({percentage}%)` computation shared by the three chart
blocks: `((item.count / total) * 100).toFixed(1)` in JS numbers. -/
def percentText (count total : Nat) : String :=
  jsToFixed1 (jsMul (jsDiv (JsNum.num count) (JsNum.num total)) (JsNum.num 100))

/-- One rendered chart segment: its label span, the count text and the
percentage text of the `{item.count}개 ({percentage}%)` span. -/
structure ChartRow where
  label : String
  countText : String
  percentT : String
deriving DecidableEq

/-- Category-distribution rows (lines 411–422); the total is recomputed by
`reduce((sum, cat) => sum + cat.count, 0)` inside the `map`. -/
def categoryChartRows (stats : DashboardStats) : List ChartRow :=
  stats.category_distribution.map (fun item =>
    let total := stats.category_distribution.foldl (fun sum cat => sum + cat.count) 0
    { label := item.category
      countText := toString item.count ++ "개"
      percentT := percentText item.count total })

/-- Expiration-status rows (lines 430–446). -/
def expirationChartRows (stats : DashboardStats) : List ChartRow :=
  stats.expiration_status.map (fun item =>
    let total := stats.expiration_status.foldl (fun sum exp => sum + exp.count) 0
    { label := item.status
      countText := toString item.count ++ "개"
      percentT := percentText item.count total })

/-- Location-distribution rows (lines 454–465). -/
def locationChartRows (stats : DashboardStats) : List ChartRow :=
  stats.location_distribution.map (fun item =>
    let total := stats.location_distribution.foldl (fun sum loc => sum + loc.count) 0
    { label := item.location
      countText := toString item.count ++ "개"
      percentT := percentText item.count total })

/-! ## Expiration-date colouring (App.js line 580) -/

/-- Days in a month of the proleptic Gregorian calendar. -/
def daysInMonth (y m : Int) : Int :=
  if m = 2 then (if y % 4 = 0 ∧ (y % 100 ≠ 0 ∨ y % 400 = 0) then 29 else 28)
  else if m = 4 ∨ m = 6 ∨ m = 9 ∨ m = 11 then 30
  else 31

/-- Civil date to days since 1970-01-01 (Gregorian). -/
def daysFromCivil (y m d : Int) : Int :=
  let y1 := if m ≤ 2 then y - 1 else y
  let era := (if 0 ≤ y1 then y1 else y1 - 399) / 400
  let yoe := y1 - era * 400
  let mp := (m + 9) % 12
  let doy := (153 * mp + 2) / 5 + d - 1
  let doe := yoe * 365 + yoe / 4 - yoe / 100 + doy
  era * 146097 + doe - 719468

/-- `new Date(s)` on the `YYYY-MM-DD` strings the date inputs and the SQL
`DATE` columns produce: an ISO date-only form parses to UTC midnight of
that day (returned as days since the epoch); out-of-range components or
any other shape give an Invalid Date (`none`). -/
def jsParseDateYMD (s : String) : Option Int :=
  match s.toList with
  | [y1, y2, y3, y4, h1, m1, m2, h2, d1, d2] =>
      if h1 = '-' ∧ h2 = '-' ∧
          ([y1, y2, y3, y4, m1, m2, d1, d2].all Char.isDigit) then
        let y : Int := digitsToNat [y1, y2, y3, y4]
        let m : Int := digitsToNat [m1, m2]
        let d : Int := digitsToNat [d1, d2]
        if 1 ≤ m ∧ m ≤ 12 ∧ 1 ≤ d ∧ d ≤ daysInMonth y m then
          some (daysFromCivil y m d)
        else none
      else none
  | _ => none

/-- JS `<` between a parsed `Date` and the current `Date`: comparing an
Invalid Date (`NaN` timestamp) is always false. -/
def jsDateBefore (parsed : Option Int) (nowMs : Int) : Bool :=
  match parsed with
  | some days => days * 86400000 < nowMs
  | none => false

/-- The class of the expiration-date span of an ingredient row (line 580):
red when `new Date(ing.expiration_date) < new Date()`, green otherwise. -/
def expirationDateClass (expirationDate : String) (nowMs : Int) : String :=
  if jsDateBefore (jsParseDateYMD expirationDate) nowMs then
    "text-red-500 font-semibold"
  else "text-green-600"

/-! ## Supabase schema and row-level security
(`src/yoon21534/setup_supabase.sql`, table/policy section) -/

/-- The SQL expressions occurring in the policy predicates. -/
inductive SqlExpr where
  | authUid
  | column (name : String)
deriving DecidableEq

/-- A policy predicate (`USING` / `WITH CHECK` clause). -/
inductive SqlPred where
  | eqE (a b : SqlExpr)
deriving DecidableEq

/-- The statement kinds a policy can cover. -/
inductive SqlCmd where
  | selectCmd
  | insertCmd
  | updateCmd
  | allCmd
deriving DecidableEq

/-- Whether the predicate came from `USING` or `WITH CHECK`. -/
inductive SqlClause where
  | usingClause
  | withCheckClause
deriving DecidableEq

structure SqlPolicy where
  policyName : String
  cmd : SqlCmd
  clause : SqlClause
  pred : SqlPred
deriving DecidableEq

structure SqlTable where
  tableName : String
  rlsEnabled : Bool
  policies : List SqlPolicy
deriving DecidableEq

/-- Evaluation of a policy expression against the authenticated caller id
and a row (a map from column name to value). -/
def evalSqlExpr (uid : String) (row : String → String) : SqlExpr → String
  | .authUid => uid
  | .column n => row n

/-- A row passes a policy predicate when the two sides coincide. -/
def sqlPredHolds (uid : String) (row : String → String) : SqlPred → Prop
  | .eqE a b => evalSqlExpr uid row a = evalSqlExpr uid row b

/-- The predicate every policy of the script uses: `auth.uid() = user_id`. -/
def authUidEqUserId : SqlPred := .eqE .authUid (.column "user_id")

/-- The five tables created by `setup_supabase.sql`, with their
`ENABLE ROW LEVEL SECURITY` statements and `CREATE POLICY` clauses. -/
def setupSupabaseTables : List SqlTable :=
  [ { tableName := "profiles"
      rlsEnabled := true
      policies :=
        [ { policyName := "Users can view their own profile"
            cmd := .selectCmd, clause := .usingClause, pred := authUidEqUserId }
        , { policyName := "Users can insert their own profile"
            cmd := .insertCmd, clause := .withCheckClause, pred := authUidEqUserId }
        , { policyName := "Users can update their own profile"
            cmd := .updateCmd, clause := .usingClause, pred := authUidEqUserId } ] }
  , { tableName := "ingredients"
      rlsEnabled := true
      policies :=
        [ { policyName := "Users can manage their own ingredients"
            cmd := .allCmd, clause := .usingClause, pred := authUidEqUserId } ] }
  , { tableName := "recipes"
      rlsEnabled := true
      policies :=
        [ { policyName := "Users can manage their own recipes"
            cmd := .allCmd, clause := .usingClause, pred := authUidEqUserId } ] }
  , { tableName := "meal_plans"
      rlsEnabled := true
      policies :=
        [ { policyName := "Users can manage their own meal plans"
            cmd := .allCmd, clause := .usingClause, pred := authUidEqUserId } ] }
  , { tableName := "shopping_list"
      rlsEnabled := true
      policies :=
        [ { policyName := "Users can manage their own shopping list"
            cmd := .allCmd, clause := .usingClause, pred := authUidEqUserId } ] } ]

/-! ## Spec-side definitions (phrased from the specification text, for
refinement statements) -/

/-- Modelled from the spec: "the list obtained by splitting the string on
commas, trimming whitespace from each part, and dropping parts that are
empty after trimming". -/
def specCommaParse (s : String) : List String :=
  ((s.toList.splitOn ',').map (fun part => String.mk (jsTrim part))).filter
    (fun part => ¬ part = "")

/-- Modelled from the spec: "(item.count / sum of count …) * 100, formatted
to exactly one decimal place" — the exact rational, rendered with one
digit after the point. -/
def specPercentValue (count total : Nat) : String :=
  toFixed1 ((count : ℚ) / (total : ℚ) * 100)

/-- Equality of the domain state C8 talks about: token, userId, isLoggedIn,
ingredients, recommendedRecipes, dashboardStats, mealPlan and the
localStorage content. -/
def DomainEq (s t : AppState) : Prop :=
  t.token = s.token ∧ t.userId = s.userId ∧ t.isLoggedIn = s.isLoggedIn ∧
  t.ingredients = s.ingredients ∧ t.recommendedRecipes = s.recommendedRecipes ∧
  t.dashboardStats = s.dashboardStats ∧ t.mealPlan = s.mealPlan ∧
  t.storage = s.storage

instance (s t : AppState) : Decidable (DomainEq s t) := by
  unfold DomainEq; infer_instance

/-- The state after a failed call differs from the snapshot only in the
`message` and `isLoading` fields. -/
def FailurePreserves (s t : AppState) : Prop :=
  DomainEq s t ∧ t = { s with message := t.message, isLoading := t.isLoading }

/-! ## Concrete sample values (used to evaluate the definitions) -/

/-- The initial React state (App.js lines 8–36) with empty `localStorage`. -/
def initialState : AppState :=
  { isLoggedIn := false, token := "", userId := "", username := "", password := ""
    email := "", message := "", currentView := "login", ingredients := []
    newIngredientName := "", newIngredientQuantity := "", newIngredientPurchaseDate := ""
    newIngredientExpirationDate := "", newIngredientLocation := "냉장실"
    recommendedRecipes := "", allergies := "", preferences := "", isLoading := false
    dashboardStats := none, chartAnalyses := [], nutritionAnalysis := ""
    mealPlan := "", priceAnalysis := "", storage := { jwtToken := none, userId := none } }

/-- A logged-in state as produced by a successful login. -/
def loggedInState : AppState :=
  { initialState with
    isLoggedIn := true
    token := "jwt-token"
    userId := "1"
    currentView := "dashboard"
    storage := { jwtToken := some "jwt-token", userId := some "1" } }

/-- A response JSON with no recognised field. -/
def emptyApiData : ApiData :=
  { token := none, user_id := none, ingredients := none
    recommended_recipes_text := none, suggestions := none, current_ingredients := none
    stats := none, chart_analysis := none, chart_title := none, data_summary := none
    nutrition_analysis := none, meal_plan := none, price_analysis := none }

/-- The outcome of a `fetch` against an unreachable server. -/
def failedFetch : FetchOutcome := .fetchError "TypeError" "Failed to fetch"

/-- Sample dashboard statistics. -/
def sampleStats : DashboardStats :=
  { ingredient_count := 3
    category_distribution := [CategoryItem.mk "채소" 2, CategoryItem.mk "육류" 1]
    expiration_status := [ExpirationItem.mk "신선함" 2, ExpirationItem.mk "만료됨" 1]
    location_distribution := [LocationItem.mk "냉장실" 3] }

/-- Dashboard statistics whose counts are all zero. -/
def zeroStats : DashboardStats :=
  { ingredient_count := 0
    category_distribution := [CategoryItem.mk "채소" 0]
    expiration_status := [ExpirationItem.mk "신선함" 0]
    location_distribution := [LocationItem.mk "냉장실" 0] }

/-! ## Helper lemmas -/

theorem catchMessage_prefixed (n m : String) :
    ∃ rest, catchMessage n m = "오류:" ++ rest := by
  unfold catchMessage
  split
  · exact ⟨" 서버에 연결할 수 없습니다. Flask 서버(http://127.0.0.1:5000)가 실행 중인지 확인해주세요.", by decide⟩
  · refine ⟨" " ++ m, ?_⟩
    have h2 : "오류: " = "오류:" ++ " " := by decide
    rw [h2, String.append_assoc]

theorem recommend_requests (st : AppState) (o : FetchOutcome) :
    (handleRecommendRecipes st o).2 =
      [[Request.mk (API_BASE_URL ++ "/recommend_recipes") "POST" (st.token ≠ "")
        (some (ReqBody.recommendB (splitTrimFilterCSV st.allergies)
          (splitTrimFilterCSV st.preferences)))]] := by
  cases o with
  | ok d =>
      by_cases hd : jsTruthyStr d.recommended_recipes_text <;>
        simp [handleRecommendRecipes, callApi, hd]
  | okBadJson n m => rfl
  | httpError s ef mf => rfl
  | fetchError n m => rfl

theorem mealplan_requests (st : AppState) (days : Nat) (o : FetchOutcome) :
    (generateMealPlan st days o).2 =
      [[Request.mk (API_BASE_URL ++ "/generate-meal-plan") "POST" (st.token ≠ "")
        (some (ReqBody.mealPlanB days (splitTrimFilterCSV st.preferences)))]] := by
  cases o with
  | ok d =>
      by_cases hd : jsTruthyStr d.meal_plan <;>
        simp [generateMealPlan, callApi, hd]
  | okBadJson n m => rfl
  | httpError s ef mf => rfl
  | fetchError n m => rfl

theorem foldl_add_count {α : Type} (f : α → Nat) :
    ∀ (l : List α) (n : Nat), l.foldl (fun sum x => sum + f x) n = n + (l.map f).sum := by
  intro l
  induction l with
  | nil => intro n; simp
  | cons a t ih => intro n; simp [ih, Nat.add_assoc]

theorem categoryTotal_eq (l : List CategoryItem) :
    l.foldl (fun sum cat => sum + cat.count) 0 = (l.map CategoryItem.count).sum := by
  simpa using foldl_add_count CategoryItem.count l 0

theorem expirationTotal_eq (l : List ExpirationItem) :
    l.foldl (fun sum exp => sum + exp.count) 0 = (l.map ExpirationItem.count).sum := by
  simpa using foldl_add_count ExpirationItem.count l 0

theorem locationTotal_eq (l : List LocationItem) :
    l.foldl (fun sum loc => sum + loc.count) 0 = (l.map LocationItem.count).sum := by
  simpa using foldl_add_count LocationItem.count l 0

theorem percentText_of_pos (c tot : Nat) (h : 0 < tot) :
    percentText c tot = specPercentValue c tot := by
  have htot : ((tot : ℚ)) ≠ 0 := Nat.cast_ne_zero.mpr h.ne'
  simp [percentText, specPercentValue, jsDiv, jsMul, jsToFixed1, htot]

theorem toFixed1_shape (q : ℚ) :
    ∃ m r : ℤ, 0 ≤ r ∧ r < 10 ∧ toFixed1 q = toString m ++ "." ++ toString r := by
  refine ⟨(q * 10 + 1 / 2).floor / 10, (q * 10 + 1 / 2).floor % 10,
    Int.emod_nonneg _ (by norm_num), Int.emod_lt_of_pos _ (by norm_num), rfl⟩

theorem fetchUserIngredients_len (tok : String) (st : AppState) (o : FetchOutcome) :
    (fetchUserIngredients tok st o).2.length ≤ 1 := by
  unfold fetchUserIngredients
  by_cases htok : tok = ""
  · simp [htok]
  · cases o with
    | ok d => cases d.ingredients <;> simp [callApi, htok] <;> split <;> simp_all
    | okBadJson n m => simp [callApi, htok]
    | httpError s ef mf => simp [callApi, htok]
    | fetchError n m => simp [callApi, htok]

theorem fetchDashboardStats_len (tok : String) (st : AppState) (o : FetchOutcome) :
    (fetchDashboardStats tok st o).2.length ≤ 1 := by
  unfold fetchDashboardStats
  cases o with
  | ok d => cases d.stats <;> simp [callApi] <;> split <;> simp_all
  | okBadJson n m => simp [callApi]
  | httpError s ef mf => simp [callApi]
  | fetchError n m => simp [callApi]

theorem handleLogin_bursts (st : AppState) (o1 o2 : FetchOutcome) :
    ∀ b ∈ (handleLogin st o1 o2).2, b.length ≤ 2 := by
  intro b hb
  cases o1 with
  | ok d =>
      by_cases hd : jsTruthyStr d.token
      · simp only [handleLogin, callApi, hd, if_true, List.mem_cons,
          List.mem_singleton, List.not_mem_nil, or_false] at hb
        rcases hb with rfl | rfl
        · simp
        · exact le_trans (fetchUserIngredients_len _ _ _) (by norm_num)
      · simp [handleLogin, callApi, hd] at hb
        subst hb; simp
  | okBadJson n m => simp [handleLogin, callApi] at hb; subst hb; simp
  | httpError s ef mf => simp [handleLogin, callApi] at hb; subst hb; simp
  | fetchError n m => simp [handleLogin, callApi] at hb; subst hb; simp

theorem handleRegister_bursts (st : AppState) (o : FetchOutcome) :
    ∀ b ∈ (handleRegister st o).2, b.length ≤ 2 := by
  intro b hb
  cases o with
  | ok d => simp [handleRegister, callApi] at hb; subst hb; simp
  | okBadJson n m => simp [handleRegister, callApi] at hb; subst hb; simp
  | httpError s ef mf => simp [handleRegister, callApi] at hb; subst hb; simp
  | fetchError n m => simp [handleRegister, callApi] at hb; subst hb; simp

theorem handleRecommendRecipes_bursts (st : AppState) (o : FetchOutcome) :
    ∀ b ∈ (handleRecommendRecipes st o).2, b.length ≤ 2 := by
  intro b hb
  rw [recommend_requests] at hb
  simp at hb
  subst hb; simp

theorem generateMealPlan_bursts (st : AppState) (days : Nat) (o : FetchOutcome) :
    ∀ b ∈ (generateMealPlan st days o).2, b.length ≤ 2 := by
  intro b hb
  rw [mealplan_requests] at hb
  simp at hb
  subst hb; simp

theorem handleSmartSuggestions_bursts (st : AppState) (o : FetchOutcome) :
    ∀ b ∈ (handleSmartSuggestions st o).2, b.length ≤ 2 := by
  intro b hb
  cases o with
  | ok d =>
      by_cases hd : jsTruthyStr d.suggestions <;>
        simp [handleSmartSuggestions, callApi, hd] at hb <;> (subst hb; simp)
  | okBadJson n m => simp [handleSmartSuggestions, callApi] at hb; subst hb; simp
  | httpError s ef mf => simp [handleSmartSuggestions, callApi] at hb; subst hb; simp
  | fetchError n m => simp [handleSmartSuggestions, callApi] at hb; subst hb; simp

theorem generateChartAnalysis_bursts (st : AppState) (ct : String) (cd : ChartData)
    (o : FetchOutcome) : ∀ b ∈ (generateChartAnalysis st ct cd o).2, b.length ≤ 2 := by
  intro b hb
  cases o with
  | ok d =>
      by_cases hd : jsTruthyStr d.chart_analysis <;>
        simp [generateChartAnalysis, callApi, hd] at hb <;> (subst hb; simp)
  | okBadJson n m => simp [generateChartAnalysis, callApi] at hb; subst hb; simp
  | httpError s ef mf => simp [generateChartAnalysis, callApi] at hb; subst hb; simp
  | fetchError n m => simp [generateChartAnalysis, callApi] at hb; subst hb; simp

theorem analyzeNutrition_bursts (st : AppState) (o : FetchOutcome) :
    ∀ b ∈ (analyzeNutrition st o).2, b.length ≤ 2 := by
  intro b hb
  cases o with
  | ok d =>
      by_cases hd : jsTruthyStr d.nutrition_analysis <;>
        simp [analyzeNutrition, callApi, hd] at hb <;> (subst hb; simp)
  | okBadJson n m => simp [analyzeNutrition, callApi] at hb; subst hb; simp
  | httpError s ef mf => simp [analyzeNutrition, callApi] at hb; subst hb; simp
  | fetchError n m => simp [analyzeNutrition, callApi] at hb; subst hb; simp

theorem analyzePrices_bursts (st : AppState) (o : FetchOutcome) :
    ∀ b ∈ (analyzePrices st o).2, b.length ≤ 2 := by
  intro b hb
  cases o with
  | ok d =>
      by_cases hd : jsTruthyStr d.price_analysis <;>
        simp [analyzePrices, callApi, hd] at hb <;> (subst hb; simp)
  | okBadJson n m => simp [analyzePrices, callApi] at hb; subst hb; simp
  | httpError s ef mf => simp [analyzePrices, callApi] at hb; subst hb; simp
  | fetchError n m => simp [analyzePrices, callApi] at hb; subst hb; simp

theorem handleAddIngredient_bursts (st : AppState) (o1 o2 o3 : FetchOutcome) :
    ∀ b ∈ (handleAddIngredient st o1 o2 o3).2, b.length ≤ 2 := by
  intro b hb
  cases o1 with
  | ok d =>
      simp only [handleAddIngredient, callApi, List.mem_cons, List.mem_singleton,
        List.not_mem_nil, or_false] at hb
      rcases hb with rfl | rfl
      · simp
      · rw [List.length_append]
        exact Nat.add_le_add (fetchUserIngredients_len _ _ _) (fetchDashboardStats_len _ _ _)
  | okBadJson n m => simp [handleAddIngredient, callApi] at hb; subst hb; simp
  | httpError s ef mf => simp [handleAddIngredient, callApi] at hb; subst hb; simp
  | fetchError n m => simp [handleAddIngredient, callApi] at hb; subst hb; simp

theorem handleDeleteIngredient_bursts (st : AppState) (c : Bool) (i : Nat)
    (o1 o2 o3 : FetchOutcome) :
    ∀ b ∈ (handleDeleteIngredient st c i o1 o2 o3).2, b.length ≤ 2 := by
  intro b hb
  cases c with
  | false => simp [handleDeleteIngredient] at hb
  | true =>
      cases o1 with
      | ok d =>
          simp only [handleDeleteIngredient, callApi, if_true, List.mem_cons,
            List.mem_singleton, List.not_mem_nil, or_false] at hb
          rcases hb with rfl | rfl
          · simp
          · rw [List.length_append]
            exact Nat.add_le_add (fetchUserIngredients_len _ _ _) (fetchDashboardStats_len _ _ _)
      | okBadJson n m => simp [handleDeleteIngredient, callApi] at hb; subst hb; simp
      | httpError s ef mf => simp [handleDeleteIngredient, callApi] at hb; subst hb; simp
      | fetchError n m => simp [handleDeleteIngredient, callApi] at hb; subst hb; simp


/-! ## The claims -/

/-- C1: whenever the network request or response handling throws (`o.fails`),
`callApi` catches the exception, stores a message prefixed `오류:` for display,
returns `null`, issues exactly one HTTP request (no retry), and performs no
other recovery — the domain state is untouched. -/
theorem spec_c1_callApi_error_collapse (tok : String) (st : AppState) (e meth : String)
    (b : Option ReqBody) (o : FetchOutcome) (h : o.fails = true) :
    (callApi tok st e meth b o).1 = none ∧
    (∃ rest, (callApi tok st e meth b o).2.1.message = "오류:" ++ rest) ∧
    (callApi tok st e meth b o).2.2.length = 1 ∧
    DomainEq st (callApi tok st e meth b o).2.1 := by
  cases o with
  | ok d => simp [FetchOutcome.fails] at h
  | okBadJson n m =>
      exact ⟨rfl, catchMessage_prefixed n m, rfl, by simp [callApi, callApiStart, DomainEq]⟩
  | httpError s ef mf =>
      refine ⟨rfl, ?_, rfl, by simp [callApi, callApiStart, DomainEq]⟩
      show ∃ rest, catchMessage "Error" (httpThrownMessage s ef mf) = "오류:" ++ rest
      exact catchMessage_prefixed _ _
  | fetchError n m =>
      exact ⟨rfl, catchMessage_prefixed n m, rfl, by simp [callApi, callApiStart, DomainEq]⟩

/-- Witness for C1 at a concrete failed fetch against the initial state. -/
theorem spec_c1_witness :
    (callApi "" initialState "/login" "POST" none failedFetch).1 = none ∧
    (∃ rest, (callApi "" initialState "/login" "POST" none failedFetch).2.1.message =
      "오류:" ++ rest) ∧
    (callApi "" initialState "/login" "POST" none failedFetch).2.2.length = 1 ∧
    DomainEq initialState (callApi "" initialState "/login" "POST" none failedFetch).2.1 :=
  spec_c1_callApi_error_collapse "" initialState "/login" "POST" none failedFetch rfl

/-- C2 counterexample: clicking the dashboard nav button in a logged-in state
starts `fetchUserIngredients` and `fetchDashboardStats` without awaiting either,
so one burst holds two simultaneous requests — the claim that at most one
request is ever in flight is false on the code. -/
theorem spec_c2_counterexample :
    (runAction loggedInState
        (.clickNavDashboard (.ok emptyApiData) (.ok emptyApiData))).2 =
      [[Request.mk "http://127.0.0.1:5000/api/user_ingredients" "GET" true none,
        Request.mk "http://127.0.0.1:5000/api/dashboard-stats" "GET" true none]] ∧
    ((runAction loggedInState
        (.clickNavDashboard (.ok emptyApiData) (.ok emptyApiData))).2.all
      (fun b => b.length ≤ 1)) = false := by
  constructor
  · rfl
  · rfl

/-- C2 (amended): for every user action, every burst of simultaneously
outstanding HTTP requests has size at most two; the pair is always the
un-awaited ingredient-list and dashboard-stats refreshes. -/
theorem spec_c2_amended (st : AppState) (a : UserAction) :
    ∀ b ∈ (runAction st a).2, b.length ≤ 2 := by
  cases a with
  | submitLogin o1 o2 => exact handleLogin_bursts st o1 o2
  | clickGotoRegister => intro b hb; simp [runAction] at hb
  | submitRegister o => exact handleRegister_bursts st o
  | clickGotoLogin => intro b hb; simp [runAction] at hb
  | clickChartCategory o =>
      intro b hb
      rcases hds : st.dashboardStats with _ | s
      · simp [runAction, hds] at hb
      · simp only [runAction, hds] at hb
        exact generateChartAnalysis_bursts _ _ _ _ b hb
  | clickChartExpiration o =>
      intro b hb
      rcases hds : st.dashboardStats with _ | s
      · simp [runAction, hds] at hb
      · simp only [runAction, hds] at hb
        exact generateChartAnalysis_bursts _ _ _ _ b hb
  | clickChartLocation o =>
      intro b hb
      rcases hds : st.dashboardStats with _ | s
      · simp [runAction, hds] at hb
      · simp only [runAction, hds] at hb
        exact generateChartAnalysis_bursts _ _ _ _ b hb
  | clickAnalyzeNutrition o => exact analyzeNutrition_bursts st o
  | clickWeeklyMealPlan o => exact generateMealPlan_bursts st 7 o
  | clickAnalyzePrices o => exact analyzePrices_bursts st o
  | clickSmartSuggestions o => exact handleSmartSuggestions_bursts st o
  | clickDeleteIngredient c i o1 o2 o3 => exact handleDeleteIngredient_bursts st c i o1 o2 o3
  | clickShowAddIngredient => intro b hb; simp [runAction] at hb
  | clickShowRecommend => intro b hb; simp [runAction] at hb
  | submitAddIngredient o1 o2 o3 => exact handleAddIngredient_bursts st o1 o2 o3
  | clickCancelAddIngredient => intro b hb; simp [runAction] at hb
  | submitRecommend o => exact handleRecommendRecipes_bursts st o
  | clickCancelRecommend => intro b hb; simp [runAction] at hb
  | clickNavDashboard o1 o2 =>
      intro b hb
      simp only [runAction, List.mem_singleton] at hb
      subst hb
      rw [List.length_append]
      exact Nat.add_le_add (fetchUserIngredients_len _ _ _) (fetchDashboardStats_len _ _ _)
  | clickNavAddIngredient => intro b hb; simp [runAction] at hb
  | clickNavRecommend => intro b hb; simp [runAction] at hb
  | clickLogout => intro b hb; simp [runAction] at hb

/-- Witness for the amended C2 at the concrete dashboard-nav burst. -/
theorem spec_c2_amended_witness :
    ([Request.mk "http://127.0.0.1:5000/api/user_ingredients" "GET" true none,
      Request.mk "http://127.0.0.1:5000/api/dashboard-stats" "GET" true none] :
        List Request).length ≤ 2 :=
  spec_c2_amended loggedInState
    (.clickNavDashboard (.ok emptyApiData) (.ok emptyApiData)) _ (by decide)

/-- C3: the client forwards to the backend exactly the comma-split, trimmed,
empty-dropped lists of the free-text fields — in `handleRecommendRecipes`
(both fields) and `generateMealPlan` (preferences); the empty string and
all-comma/whitespace strings parse to the empty list, and every forwarded
entry is a nonempty trimmed part of the input. -/
theorem spec_c3_comma_parsing :
    (∀ s, splitTrimFilterCSV s = specCommaParse s) ∧
    (∀ st o, ∃ req : Request, (handleRecommendRecipes st o).2 = [[req]] ∧
      req.body = some (.recommendB (specCommaParse st.allergies)
        (specCommaParse st.preferences))) ∧
    (∀ st days o, ∃ req : Request, (generateMealPlan st days o).2 = [[req]] ∧
      req.body = some (.mealPlanB days (specCommaParse st.preferences))) ∧
    specCommaParse "" = [] ∧
    (∀ s, (∀ part ∈ s.toList.splitOn ',', String.mk (jsTrim part) = "") →
      specCommaParse s = []) ∧
    (∀ s t, t ∈ specCommaParse s →
      t ≠ "" ∧ ∃ part ∈ s.toList.splitOn ',', t = String.mk (jsTrim part)) := by
  refine ⟨fun s => rfl, ?_, ?_, by decide, ?_, ?_⟩
  · intro st o
    exact ⟨_, recommend_requests st o, rfl⟩
  · intro st days o
    exact ⟨_, mealplan_requests st days o, rfl⟩
  · intro s h
    simp only [specCommaParse, List.filter_eq_nil_iff]
    intro a ha
    rcases List.mem_map.mp ha with ⟨u, hu, rfl⟩
    simp [h u hu]
  · intro s t ht
    have hmem := List.mem_filter.mp ht
    rcases List.mem_map.mp hmem.1 with ⟨u, hu, rfl⟩
    refine ⟨by simpa using hmem.2, u, hu, rfl⟩

/-- Witness for C3 on a string of only commas and whitespace. -/
theorem spec_c3_witness : specCommaParse " , ,," = [] :=
  spec_c3_comma_parsing.2.2.2.2.1 " , ,," (by decide)

/-- C4: for each of the three dashboard distribution lists, every rendered row
shows its own count, and — when the counts sum to a positive total — the
percentage text equals `(count / total) * 100` formatted with exactly one
digit after the decimal point. -/
theorem spec_c4_chart_percentages (stats : DashboardStats) :
    (∀ i, (hi : i < stats.category_distribution.length) →
      0 < (stats.category_distribution.map CategoryItem.count).sum →
      (categoryChartRows stats)[i]? =
        some (ChartRow.mk stats.category_distribution[i].category
          (toString stats.category_distribution[i].count ++ "개")
          (specPercentValue stats.category_distribution[i].count
            ((stats.category_distribution.map CategoryItem.count).sum))) ∧
      ∃ m r : ℤ, 0 ≤ r ∧ r < 10 ∧
        specPercentValue stats.category_distribution[i].count
            ((stats.category_distribution.map CategoryItem.count).sum) =
          toString m ++ "." ++ toString r) ∧
    (∀ i, (hi : i < stats.expiration_status.length) →
      0 < (stats.expiration_status.map ExpirationItem.count).sum →
      (expirationChartRows stats)[i]? =
        some (ChartRow.mk stats.expiration_status[i].status
          (toString stats.expiration_status[i].count ++ "개")
          (specPercentValue stats.expiration_status[i].count
            ((stats.expiration_status.map ExpirationItem.count).sum))) ∧
      ∃ m r : ℤ, 0 ≤ r ∧ r < 10 ∧
        specPercentValue stats.expiration_status[i].count
            ((stats.expiration_status.map ExpirationItem.count).sum) =
          toString m ++ "." ++ toString r) ∧
    (∀ i, (hi : i < stats.location_distribution.length) →
      0 < (stats.location_distribution.map LocationItem.count).sum →
      (locationChartRows stats)[i]? =
        some (ChartRow.mk stats.location_distribution[i].location
          (toString stats.location_distribution[i].count ++ "개")
          (specPercentValue stats.location_distribution[i].count
            ((stats.location_distribution.map LocationItem.count).sum))) ∧
      ∃ m r : ℤ, 0 ≤ r ∧ r < 10 ∧
        specPercentValue stats.location_distribution[i].count
            ((stats.location_distribution.map LocationItem.count).sum) =
          toString m ++ "." ++ toString r) := by
  refine ⟨?_, ?_, ?_⟩
  · intro i hi hpos
    refine ⟨?_, toFixed1_shape _⟩
    simp only [categoryChartRows, List.getElem?_map, List.getElem?_eq_getElem hi,
      Option.map_some']
    rw [categoryTotal_eq, percentText_of_pos _ _ hpos]
  · intro i hi hpos
    refine ⟨?_, toFixed1_shape _⟩
    simp only [expirationChartRows, List.getElem?_map, List.getElem?_eq_getElem hi,
      Option.map_some']
    rw [expirationTotal_eq, percentText_of_pos _ _ hpos]
  · intro i hi hpos
    refine ⟨?_, toFixed1_shape _⟩
    simp only [locationChartRows, List.getElem?_map, List.getElem?_eq_getElem hi,
      Option.map_some']
    rw [locationTotal_eq, percentText_of_pos _ _ hpos]

/-- Witness for C4 on a concrete category distribution. -/
theorem spec_c4_witness :
    ((categoryChartRows sampleStats)[0]? =
      some (ChartRow.mk sampleStats.category_distribution[0].category
        (toString sampleStats.category_distribution[0].count ++ "개")
        (specPercentValue sampleStats.category_distribution[0].count
          ((sampleStats.category_distribution.map CategoryItem.count).sum)))) ∧
    ∃ m r : ℤ, 0 ≤ r ∧ r < 10 ∧
      specPercentValue sampleStats.category_distribution[0].count
          ((sampleStats.category_distribution.map CategoryItem.count).sum) =
        toString m ++ "." ++ toString r :=
  (spec_c4_chart_percentages sampleStats).1 0 (by decide) (by decide)

/-- C5: an ingredient expiration date renders red exactly when the parsed date
is strictly earlier than the current time, and green in every other case
(including an unparsable date). -/
theorem spec_c5_expiration_coloring (e : String) (now : Int) :
    (expirationDateClass e now = "text-red-500 font-semibold" ↔
      ∃ d, jsParseDateYMD e = some d ∧ d * 86400000 < now) ∧
    (expirationDateClass e now = "text-red-500 font-semibold" ∨
      expirationDateClass e now = "text-green-600") := by
  unfold expirationDateClass
  rcases h : jsParseDateYMD e with _ | d
  · simp [jsDateBefore, h]
  · by_cases hlt : d * 86400000 < now
    · simp [jsDateBefore, h, hlt]
    · simp [jsDateBefore, h, hlt]

/-- Witness for C5: a 2024 date is red against a later clock. -/
theorem spec_c5_witness :
    expirationDateClass "2024-01-01" 1704067200001 = "text-red-500 font-semibold" :=
  (spec_c5_expiration_coloring "2024-01-01" 1704067200001).1.mpr ⟨19723, by decide, by decide⟩

/-- C6: `renderView` returns the login, register, dashboard, add-ingredient and
recommendation panels for the five named `currentView` values, and `null` for
every other value. -/
theorem spec_c6_render_dispatch (v : String) :
    renderView "login" = some .loginForm ∧
    renderView "register" = some .registerForm ∧
    renderView "dashboard" = some .dashboard ∧
    renderView "addIngredient" = some .addIngredientForm ∧
    renderView "recommend" = some .recommendView ∧
    (v ∉ (["login", "register", "dashboard", "addIngredient", "recommend"] : List String) →
      renderView v = none) := by
  refine ⟨rfl, rfl, rfl, rfl, rfl, ?_⟩
  intro hv
  unfold renderView
  split <;> simp_all

/-- Witness for C6 at a view name outside the five cases. -/
theorem spec_c6_witness : renderView "stats" = none :=
  (spec_c6_render_dispatch "stats").2.2.2.2.2 (by decide)

/-- C7: the five provisioned tables are exactly profiles, ingredients, recipes,
meal_plans and shopping_list, each has row-level security enabled, every policy
predicate is `auth.uid() = user_id`, and hence every row a caller can access
through a policy carries that caller id. -/
theorem spec_c7_rls_policies :
    setupSupabaseTables.map SqlTable.tableName =
      ["profiles", "ingredients", "recipes", "meal_plans", "shopping_list"] ∧
    (∀ t ∈ setupSupabaseTables, t.rlsEnabled = true) ∧
    (∀ t ∈ setupSupabaseTables, ∀ pol ∈ t.policies, pol.pred = authUidEqUserId) ∧
    (∀ t ∈ setupSupabaseTables, ∀ pol ∈ t.policies, ∀ uid row,
      sqlPredHolds uid row pol.pred → row "user_id" = uid) := by
  refine ⟨by decide, by decide, by decide, ?_⟩
  have hall : ∀ t ∈ setupSupabaseTables, ∀ pol ∈ t.policies, pol.pred = authUidEqUserId := by
    decide
  intro t ht pol hp uid row hpred
  rw [hall t ht pol hp] at hpred
  exact hpred.symm

/-- Witness for C7: a concrete row passing the ingredients policy belongs to
the caller. -/
theorem spec_c7_witness :
    (fun col => if col = "user_id" then "user-1" else "") "user_id" = "user-1" :=
  spec_c7_rls_policies.2.2.2
    (SqlTable.mk "ingredients" true
      [SqlPolicy.mk "Users can manage their own ingredients" .allCmd .usingClause
        authUidEqUserId])
    (by decide)
    (SqlPolicy.mk "Users can manage their own ingredients" .allCmd .usingClause
      authUidEqUserId)
    (by decide)
    "user-1" (fun col => if col = "user_id" then "user-1" else "") rfl

/-- C8: when the network outcome fails, every handler that calls `callApi`
leaves the domain state (token, userId, isLoggedIn, ingredients,
recommendedRecipes, dashboardStats, mealPlan, localStorage) unchanged, and the
whole state differs only in `message` and `isLoading`. -/
theorem spec_c8_failure_preserves_domain (st : AppState) (o : FetchOutcome) (h : o.fails = true) :
    FailurePreserves st (handleRegister st o).1 ∧
    (∀ o2, FailurePreserves st (handleLogin st o o2).1) ∧
    (∀ tok, FailurePreserves st (fetchUserIngredients tok st o).1) ∧
    (∀ o2 o3, FailurePreserves st (handleAddIngredient st o o2 o3).1) ∧
    (∀ c i o2 o3, FailurePreserves st (handleDeleteIngredient st c i o o2 o3).1) ∧
    FailurePreserves st (handleRecommendRecipes st o).1 ∧
    FailurePreserves st (handleSmartSuggestions st o).1 ∧
    (∀ tok, FailurePreserves st (fetchDashboardStats tok st o).1) ∧
    (∀ ct cd, FailurePreserves st (generateChartAnalysis st ct cd o).1) ∧
    FailurePreserves st (analyzeNutrition st o).1 ∧
    (∀ days, FailurePreserves st (generateMealPlan st days o).1) ∧
    FailurePreserves st (analyzePrices st o).1 := by
  cases o with
  | ok d => simp [FetchOutcome.fails] at h
  | okBadJson n m =>
      refine ⟨?_, ?_, ?_, ?_, ?_, ?_, ?_, ?_, ?_, ?_, ?_, ?_⟩ <;>
        first
        | (simp [handleRegister, handleLogin, fetchUserIngredients, handleAddIngredient,
             handleDeleteIngredient, handleRecommendRecipes, handleSmartSuggestions,
             fetchDashboardStats, generateChartAnalysis, analyzeNutrition, generateMealPlan,
             analyzePrices, callApi, callApiStart, FailurePreserves, DomainEq, apply_ite]
           done)
        | (intro tok
           by_cases htok : tok = "" <;>
             simp [fetchUserIngredients, fetchDashboardStats, callApi, callApiStart,
               FailurePreserves, DomainEq, htok])
  | httpError s2 ef mf =>
      refine ⟨?_, ?_, ?_, ?_, ?_, ?_, ?_, ?_, ?_, ?_, ?_, ?_⟩ <;>
        first
        | (simp [handleRegister, handleLogin, fetchUserIngredients, handleAddIngredient,
             handleDeleteIngredient, handleRecommendRecipes, handleSmartSuggestions,
             fetchDashboardStats, generateChartAnalysis, analyzeNutrition, generateMealPlan,
             analyzePrices, callApi, callApiStart, FailurePreserves, DomainEq, apply_ite]
           done)
        | (intro tok
           by_cases htok : tok = "" <;>
             simp [fetchUserIngredients, fetchDashboardStats, callApi, callApiStart,
               FailurePreserves, DomainEq, htok])
  | fetchError n m =>
      refine ⟨?_, ?_, ?_, ?_, ?_, ?_, ?_, ?_, ?_, ?_, ?_, ?_⟩ <;>
        first
        | (simp [handleRegister, handleLogin, fetchUserIngredients, handleAddIngredient,
             handleDeleteIngredient, handleRecommendRecipes, handleSmartSuggestions,
             fetchDashboardStats, generateChartAnalysis, analyzeNutrition, generateMealPlan,
             analyzePrices, callApi, callApiStart, FailurePreserves, DomainEq, apply_ite]
           done)
        | (intro tok
           by_cases htok : tok = "" <;>
             simp [fetchUserIngredients, fetchDashboardStats, callApi, callApiStart,
               FailurePreserves, DomainEq, htok])

/-- Witness for C8: the register handler on a failed fetch. -/
theorem spec_c8_witness :
    FailurePreserves initialState (handleRegister initialState failedFetch).1 :=
  (spec_c8_failure_preserves_domain initialState failedFetch rfl).1

/-- C9: `callApi` sets `isLoading` on entry and clears it on every exit path —
success, HTTP error, or thrown exception. -/
theorem spec_c9_isLoading_reset (tok : String) (st : AppState) (e meth : String)
    (b : Option ReqBody) (o : FetchOutcome) :
    (callApiStart st).isLoading = true ∧
    (callApi tok st e meth b o).2.1.isLoading = false := by
  refine ⟨rfl, ?_⟩
  cases o <;> simp [callApi, callApiStart]

/-- C10: when the counts of a distribution sum to zero, the unguarded division
makes every rendered percentage string `NaN`. -/
theorem spec_c10_zero_total_nan (stats : DashboardStats) :
    (∀ row ∈ categoryChartRows stats,
      (stats.category_distribution.map CategoryItem.count).sum = 0 →
      row.percentT = "NaN") ∧
    (∀ row ∈ expirationChartRows stats,
      (stats.expiration_status.map ExpirationItem.count).sum = 0 →
      row.percentT = "NaN") ∧
    (∀ row ∈ locationChartRows stats,
      (stats.location_distribution.map LocationItem.count).sum = 0 →
      row.percentT = "NaN") := by
  refine ⟨?_, ?_, ?_⟩
  · intro row hrow h0
    rcases List.mem_map.mp hrow with ⟨item, hitem, rfl⟩
    have hle : item.count ≤ (stats.category_distribution.map CategoryItem.count).sum :=
      List.single_le_sum (fun x _ => Nat.zero_le x) _ (List.mem_map_of_mem _ hitem)
    have hc : item.count = 0 := Nat.le_zero.mp (h0 ▸ hle)
    show percentText item.count _ = "NaN"
    rw [categoryTotal_eq, h0, hc]
    simp [percentText, jsDiv, jsMul, jsToFixed1]
  · intro row hrow h0
    rcases List.mem_map.mp hrow with ⟨item, hitem, rfl⟩
    have hle : item.count ≤ (stats.expiration_status.map ExpirationItem.count).sum :=
      List.single_le_sum (fun x _ => Nat.zero_le x) _ (List.mem_map_of_mem _ hitem)
    have hc : item.count = 0 := Nat.le_zero.mp (h0 ▸ hle)
    show percentText item.count _ = "NaN"
    rw [expirationTotal_eq, h0, hc]
    simp [percentText, jsDiv, jsMul, jsToFixed1]
  · intro row hrow h0
    rcases List.mem_map.mp hrow with ⟨item, hitem, rfl⟩
    have hle : item.count ≤ (stats.location_distribution.map LocationItem.count).sum :=
      List.single_le_sum (fun x _ => Nat.zero_le x) _ (List.mem_map_of_mem _ hitem)
    have hc : item.count = 0 := Nat.le_zero.mp (h0 ▸ hle)
    show percentText item.count _ = "NaN"
    rw [locationTotal_eq, h0, hc]
    simp [percentText, jsDiv, jsMul, jsToFixed1]

/-- Witness for C10 on an all-zero distribution. -/
theorem spec_c10_witness :
    percentText 0 0 = "NaN" :=
  (spec_c10_zero_total_nan zeroStats).1 (ChartRow.mk "채소" "0개" (percentText 0 0)) (by decide) (by decide)
